import Mathlib

/-!
Shallow embedding of the stock-lifecycle and monitoring subsystem of the
`inventory_management` Django application (`main/models.py`, `main/views.py`,
`main/common.py`, `main/middleware.py`).

The relational store is modelled as lists of rows; each Django ORM query used
by the code under scrutiny is translated into the corresponding list
operation: `.filter(...).first()` becomes `List.filter` + `List.head?`,
`.count()` becomes `List.length` of a filter, `get_or_create` becomes a
lookup followed by an append of a row built from the model defaults, and
`instance.save()` becomes an id-keyed replacement in the row list.
-/

namespace Inv

/-- Router lifecycle statuses, from `Router.STATUSES` in `main/models.py`
(`in_stock`, `new_sale`, `collected`, `return`, `swap`); `return` is spelled
`ret` because `return` is a Lean keyword. -/
inductive Status where
  | in_stock
  | new_sale
  | collected
  | ret
  | swap
  deriving Repr, DecidableEq

/-- Action types, from `Action.ACTIONS` in `main/models.py`
(`collect`, `sale`, `return`, `swap`). -/
inductive ActionType where
  | collect
  | sale
  | ret
  | swap
  deriving Repr, DecidableEq

/-- Audit log verbs, from `Log.ACTIONS_CHOICES` in `main/models.py`. -/
inductive LogAction where
  | add
  | edit
  | delete
  deriving Repr, DecidableEq

/-- Audit log target kinds, from `Log.INSTANCES_CHOICES` in `main/models.py`. -/
inductive LogInstance where
  | router
  | category
  deriving Repr, DecidableEq

/-- A `Store` row (`main/models.py`): only the fields the core logic reads. -/
structure Store where
  id : Nat
  alert_on : Int
  deriving Repr, DecidableEq

/-- A `Category` row (`main/models.py`). -/
structure Category where
  id : Nat
  name : String
  store : Nat
  type : String
  deleted : Bool
  alerted : Bool
  alert_on : Int
  deriving Repr, DecidableEq

/-- A `Router` row (`main/models.py`); `store`/`category` are nullable
foreign keys. -/
structure Router where
  id : Nat
  store : Option Nat
  category : Option Nat
  serial_number : String
  emei : Option String
  status : Status
  reason : Option String
  deleted : Bool
  deriving Repr, DecidableEq

/-- An `Action` row (`main/models.py`); `router`/`router2` hold router ids. -/
structure ActionRow where
  store : Option Nat
  user : Nat
  action : ActionType
  order_number : Option String
  router : Option Nat
  router2 : Option Nat
  reason : Option String
  comment : Option String
  deriving Repr, DecidableEq

/-- A `Log` row (`main/models.py`); `instance_kind` is the model's
`instance` field (`instance` is a Lean keyword). -/
structure LogRow where
  store : Option Nat
  user : Nat
  action : LogAction
  instance_kind : LogInstance
  serial_number : Option String
  category_name : Option String
  instance_id : Option Nat
  deriving Repr, DecidableEq

/-- A `Monitoring` row (`main/models.py`); `day` is a calendar day number
(the `DateField` with `auto_now=True`). -/
structure MonitoringRow where
  store : Nat
  category : Option Nat
  routers : Int
  day : Int
  deriving Repr, DecidableEq

/-- A `Notification` row (`main/models.py`); `date_sent` is a calendar day
number (the `DateField` with `auto_now_add=True`). -/
structure NotificationRow where
  store : Nat
  date_sent : Int
  deriving Repr, DecidableEq

/-- The relational database state.  `nextRouterId` and `nextCategoryId`
model the autoincrement primary-key sequences of the `Router` and
`Category` tables, used when `get_or_create` or `create` inserts a row. -/
structure DB where
  stores : List Store
  categories : List Category
  routers : List Router
  actions : List ActionRow
  logs : List LogRow
  monitoring : List MonitoringRow
  notifications : List NotificationRow
  nextRouterId : Nat
  nextCategoryId : Nat
  deriving Repr, DecidableEq

/-- `Category.count_routers` (`main/models.py`): number of routers of this
category with `deleted=False` and `status="in_stock"`. -/
def Category.count_routers (c : Category) (routers : List Router) : Nat :=
  (routers.filter (fun r =>
    decide (r.category = some c.id ∧ r.deleted = false ∧ r.status = Status.in_stock))).length

/-- `Store.count_routers` (`main/models.py`): number of routers of this store
with `deleted=False` and `status="in_stock"`. -/
def Store.count_routers (s : Store) (routers : List Router) : Nat :=
  (routers.filter (fun r =>
    decide (r.store = some s.id ∧ r.deleted = false ∧ r.status = Status.in_stock))).length

/-- `Router.objects.filter(store=store, serial_number=sn).first()`
(`main/views.py`, `ActionsView.post`). -/
def findScoped (routers : List Router) (storeId : Nat) (sn : String) : Option Router :=
  (routers.filter (fun r => decide (r.store = some storeId ∧ r.serial_number = sn))).head?

/-- `Router.objects.filter(serial_number=sn).first()` / the lookup half of
`Router.objects.get_or_create(serial_number=sn)`. -/
def findGlobal (routers : List Router) (sn : String) : Option Router :=
  (routers.filter (fun r => decide (r.serial_number = sn))).head?

/-- A freshly inserted router row with the model-field defaults of
`main/models.py` (`status="in_stock"`, nullable fields null,
`deleted=False`). -/
def newRouter (id : Nat) (sn : String) : Router :=
  { id := id, store := none, category := none, serial_number := sn,
    emei := none, status := Status.in_stock, reason := none, deleted := false }

/-- `instance.save()` on a router: replace the row carrying this primary key. -/
def saveRouter (db : DB) (r : Router) : DB :=
  { db with routers := db.routers.map (fun row => if row.id = r.id then r else row) }

/-- Outcome of a request handler: HTTP 200, or the error message the view
puts into the JSON response. -/
inductive ActionResult where
  | ok
  | err (msg : String)
  deriving Repr, DecidableEq

/-- Primary-router resolution of `ActionsView.post` (`main/views.py`
lines 1067-1077): scoped lookup first; on a miss, for `return`/`swap` only,
`Router.objects.get_or_create(serial_number=sn1)` — the created row is
inserted with field defaults (so `store` is null in the database until the
later `router1.save()`), while the in-memory object gets `store` assigned. -/
def resolve1 (db : DB) (storeId : Nat) (action : ActionType) (sn1 : String) :
    DB × Option Router :=
  match findScoped db.routers storeId sn1 with
  | some r => (db, some r)
  | none =>
    if action = ActionType.ret ∨ action = ActionType.swap then
      match findGlobal db.routers sn1 with
      | some r => (db, some r)
      | none =>
        let r := newRouter db.nextRouterId sn1
        ({ db with routers := db.routers ++ [r], nextRouterId := db.nextRouterId + 1 },
         some { r with store := some storeId })
    else (db, none)

/-- Secondary-router resolution of `ActionsView.post` (`main/views.py`
lines 1081-1084): when `sn2` is present, an unconditional global
`get_or_create`, with `store` assigned in memory when the row was created. -/
def resolve2 (db : DB) (storeId : Nat) (sn2 : Option String) :
    DB × Option Router :=
  match sn2 with
  | none => (db, none)
  | some s =>
    match findGlobal db.routers s with
    | some r => (db, some r)
    | none =>
      let r := newRouter db.nextRouterId s
      ({ db with routers := db.routers ++ [r], nextRouterId := db.nextRouterId + 1 },
       some { r with store := some storeId })

/-- Tail of `ActionsView.post` (`main/views.py` lines 1150-1156): create the
`Action` row, then `router1.save()`, then `router2.save()` when a secondary
router was resolved. -/
def finishAction (db : DB) (storeId userId : Nat) (action : ActionType)
    (r1 : Router) (r2save : Option Router) (r2ref : Option Nat)
    (reason comment order_number : Option String) : DB × ActionResult :=
  let arow : ActionRow :=
    { store := some storeId, user := userId, action := action,
      order_number := order_number, router := some r1.id, router2 := r2ref,
      reason := reason, comment := comment }
  let dbA := { db with actions := db.actions ++ [arow] }
  let dbB := saveRouter dbA r1
  match r2save with
  | none => (dbB, ActionResult.ok)
  | some r2 => (saveRouter dbB r2, ActionResult.ok)

/-- `ActionsView.post` (`main/views.py` lines 1052-1159).  The branch
structure, status preconditions, error messages and the order of the
database writes follow the source; the commented-out status checks of the
`return` and `swap` branches are dead code and therefore absent.  A `swap`
without a second serial number hits `router2.status` on `None`
(AttributeError), swallowed by the catch-all handler into the generic
500 message. -/
def applyAction (db : DB) (storeId userId : Nat) (action : ActionType)
    (sn1 : String) (sn2 : Option String) (order_number : Option String)
    (return_reason swap_reason comment : Option String) : DB × ActionResult :=
  match resolve1 db storeId action sn1 with
  | (db1, none) => (db1, ActionResult.err "We can't find the router with the provided details")
  | (db1, some router1) =>
    match resolve2 db1 storeId sn2 with
    | (db2, router2) =>
      match action with
      | ActionType.ret =>
        let r1' := { router1 with status := Status.ret, reason := return_reason,
                                  store := some storeId }
        finishAction db2 storeId userId ActionType.ret r1' router2 none
          return_reason comment none
      | ActionType.swap =>
        match router2 with
        | none => (db2, ActionResult.err "An errror occured while processing the request")
        | some r2 =>
          let r1' := { router1 with status := Status.collected, store := some storeId }
          let r2' := { r2 with status := Status.swap, reason := return_reason }
          finishAction db2 storeId userId ActionType.swap r1' (some r2') (some r2.id)
            swap_reason comment none
      | ActionType.collect =>
        if router1.status = Status.new_sale ∨ router1.status = Status.in_stock then
          finishAction db2 storeId userId ActionType.collect
            { router1 with status := Status.collected } router2 none none comment order_number
        else if router1.status = Status.collected then
          (db2, ActionResult.err "This router is already collected.")
        else
          (db2, ActionResult.err "This router is not sold.")
      | ActionType.sale =>
        if router1.status = Status.in_stock then
          finishAction db2 storeId userId ActionType.sale
            { router1 with status := Status.new_sale } router2 none none comment order_number
        else if router1.status = Status.new_sale then
          (db2, ActionResult.err "This router is already sold.")
        else if router1.status = Status.collected then
          (db2, ActionResult.err "This router is already collected.")
        else
          (db2, ActionResult.err "This router is not in stock.")

/-- The low-stock notification check of the `router_changed` `post_save`
signal handler (`main/models.py` lines 218-226): when the store-wide
in-stock count is below the store threshold and no `Notification` row for
the store exists since today's midnight, create one. -/
def router_changed (db : DB) (today : Int) (s : Store) : DB :=
  if (Store.count_routers s db.routers : Int) < s.alert_on
      ∧ db.notifications.filter
          (fun n => decide (n.store = s.id ∧ today ≤ n.date_sent)) = [] then
    { db with notifications := db.notifications ++ [⟨s.id, today⟩] }
  else db

/-- `n` sequential triggers of the `router_changed` threshold check on the
same day. -/
def iterChanged (today : Int) (s : Store) (db : DB) : Nat → DB
  | 0 => db
  | n + 1 => router_changed (iterChanged today s db n) today s

/-- One step of `create_alerts` (`main/common.py` lines 37-44): latch the
`alerted` flag of a category whose live in-stock count is below its
threshold; `category.save()` writes the whole in-memory snapshot back to the
row with this primary key. -/
def alertFold (routers : List Router) (cats : List Category) (c : Category) :
    List Category :=
  if (Category.count_routers c routers : Int) < c.alert_on then
    cats.map (fun row => if row.id = c.id then { c with alerted := true } else row)
  else cats

/-- `create_alerts` (`main/common.py` lines 37-44): iterate over the
queryset snapshot `Category.objects.filter(alerted=False)` — all categories
of all stores, deleted or not — and latch every one whose live count is
below its `alert_on` threshold.  Only the category table changes. -/
def create_alerts (db : DB) : DB :=
  let cats := List.foldl (alertFold db.routers) db.categories
    (db.categories.filter (fun c => decide (c.alerted = false)))
  { db with categories := cats }

/-- The `get_or_create` lookup key of `create_monitoring`
(`main/common.py` line 27): `store=store, category=category,
day__gte=min_today_time`. -/
def monKey (today : Int) (storeId catId : Nat) (m : MonitoringRow) : Bool :=
  decide (m.store = storeId ∧ m.category = some catId ∧ today ≤ m.day)

/-- One category step of `create_monitoring` (`main/common.py`
lines 25-31): `get_or_create` on the key above, then overwrite `routers`
and save (the `DateField(auto_now=True)` resets `day` to today on save).
On a create, the `day__gte` lookup is stripped from the create kwargs, so
the new row carries today's date, the store and the category.  When the
`get` finds several rows, `MultipleObjectsReturned` is swallowed by the
per-category exception handler and nothing changes. -/
def monUpsert (routers : List Router) (today : Int) (s : Store)
    (mons : List MonitoringRow) (c : Category) : List MonitoringRow :=
  let cnt : Int := Category.count_routers c routers
  match mons.filter (monKey today s.id c.id) with
  | [] => mons ++ [⟨s.id, some c.id, cnt, today⟩]
  | [_] => mons.map (fun m =>
      if monKey today s.id c.id m then { m with routers := cnt, day := today } else m)
  | _ => mons

/-- The per-store loop of `create_monitoring` (`main/common.py`
lines 20-29): every category of the store — `Category.objects.filter(store=store)`
has no `deleted` filter — gets an upsert. -/
def processStore (routers : List Router) (cats : List Category) (today : Int)
    (mons : List MonitoringRow) (s : Store) : List MonitoringRow :=
  (cats.filter (fun c => decide (c.store = s.id))).foldl (monUpsert routers today s) mons

/-- `create_monitoring` (`main/common.py` lines 15-35): the daily snapshot
sweep over every store.  Only the monitoring table changes. -/
def create_monitoring (db : DB) (today : Int) : DB :=
  { db with monitoring :=
      db.stores.foldl (processStore db.routers db.categories today) db.monitoring }

/-- `Monitoring.objects.filter(store=store, category=category,
day__gte=date_start, day__lt=date_end)` for a one-day window
(`main/views.py` line 439). -/
def monDayRows (mons : List MonitoringRow) (storeId catId : Nat) (d : Int) :
    List MonitoringRow :=
  mons.filter (fun m =>
    decide (m.store = storeId ∧ m.category = some catId ∧ d ≤ m.day ∧ m.day < d + 1))

/-- The per-category trend value of `DashboardView.get` (`main/views.py`
lines 427-446) at day index `i` of the five-day window
`[today-4, …, today]`: live count at index 4, else the first stored row for
that exact day, else the previous day's resolved value, with 0 at index 0. -/
def catTrendVal (db : DB) (today : Int) (s : Store) (c : Category) : Nat → Int
  | 0 =>
    match (monDayRows db.monitoring s.id c.id (today - 4)).head? with
    | some m => m.routers
    | none => 0
  | n + 1 =>
    if n + 1 = 4 then (Category.count_routers c db.routers : Int)
    else
      match (monDayRows db.monitoring s.id c.id (today - 4 + ((n : Int) + 1))).head? with
      | some m => m.routers
      | none => catTrendVal db today s c n

/-- The five-day per-category trend sequence of `DashboardView.get`. -/
def catTrend (db : DB) (today : Int) (s : Store) (c : Category) : List Int :=
  (List.range 5).map (catTrendVal db today s c)

/-- The store-day aggregate of `DashboardView.get` (`main/views.py`
lines 459-469): `Monitoring.objects.aggregate(total=Sum(Case(...)))` sums a
conditional expression over the whole monitoring table, yielding `None`
exactly when the table has no rows at all. -/
def storeDayTotal (mons : List MonitoringRow) (storeId : Nat) (d : Int) :
    Option Int :=
  match mons with
  | [] => none
  | _ => some ((mons.map (fun m =>
      if m.store = storeId ∧ d ≤ m.day ∧ m.day < d + 1 then m.routers else 0)).sum)

/-- `Monitoring.objects.filter(store=store, day__gte=date_start,
day__lt=date_end)` (`main/views.py` line 471). -/
def storeDayRows (mons : List MonitoringRow) (storeId : Nat) (d : Int) :
    List MonitoringRow :=
  mons.filter (fun m => decide (m.store = storeId ∧ d ≤ m.day ∧ m.day < d + 1))

/-- Python truthiness of the aggregate result: `None` and `0` are falsy. -/
def falsy : Option Int → Bool
  | none => true
  | some v => decide (v = 0)

/-- The store-wide trend value of `DashboardView.get` (`main/views.py`
lines 453-475) at day index `i`: live count at index 4, else the aggregate
total, replaced by the previous day's value when the total is falsy, the
index is positive and no monitoring row for the store exists on that day. -/
def storeTrendVal (db : DB) (today : Int) (s : Store) : Nat → Option Int
  | 0 => storeDayTotal db.monitoring s.id (today - 4)
  | n + 1 =>
    if n + 1 = 4 then some ((Store.count_routers s db.routers : Int))
    else
      let d := today - 4 + ((n : Int) + 1)
      let total := storeDayTotal db.monitoring s.id d
      if falsy total ∧ storeDayRows db.monitoring s.id d = [] then
        storeTrendVal db today s n
      else total

/-- The five-day store-wide trend sequence (`store_monitors`) of
`DashboardView.get`. -/
def store_trend (db : DB) (today : Int) (s : Store) : List (Option Int) :=
  (List.range 5).map (storeTrendVal db today s)

/-- `CreateRouterView.post` (`main/views.py` lines 583-622): manager-only;
category looked up by id (nullable); `Router.objects.create` raises
`IntegrityError` on a duplicate serial number; on success the category's
`alerted` flag is reset and one `add` log row is written.  When the category
id resolves to nothing, the router row is still created but
`category.alerted` on `None` raises, so the request fails after the insert
and writes no log. -/
def createRouter (db : DB) (userId storeId : Nat) (role : String)
    (categoryId : Nat) (serial : String) : DB × ActionResult :=
  if role ≠ "store_manager" then (db, ActionResult.err "You don't have permissions")
  else
    let cat? := (db.categories.filter (fun c => decide (c.id = categoryId))).head?
    match findGlobal db.routers serial with
    | some _ => (db, ActionResult.err "Router already exists in the database")
    | none =>
      let r := { newRouter db.nextRouterId serial with
                   store := some storeId, category := cat?.map (fun c => c.id) }
      let db1 := { db with routers := db.routers ++ [r],
                           nextRouterId := db.nextRouterId + 1 }
      match cat? with
      | none => (db1, ActionResult.err "An error occured while processing the request")
      | some c =>
        let db2 := { db1 with categories := db1.categories.map (fun (row : Category) =>
                       if row.id = c.id then { c with alerted := false } else row) }
        ({ db2 with logs := db2.logs ++
            [{ store := some storeId, user := userId, action := LogAction.add,
               instance_kind := LogInstance.router, serial_number := some serial,
               category_name := none, instance_id := some r.id }] },
         ActionResult.ok)

/-- `CreateCategoryView.post` (`main/views.py` lines 536-563): manager-only;
creates the category and writes one `add` log row. -/
def createCategory (db : DB) (userId storeId : Nat) (role : String)
    (name ctype : String) : DB × ActionResult :=
  if role ≠ "store_manager" then (db, ActionResult.err "You don't have enough permissions")
  else
    let c : Category := { id := db.nextCategoryId, name := name, store := storeId,
                          type := ctype, deleted := false, alerted := false,
                          alert_on := 50 }
    let db1 := { db with categories := db.categories ++ [c],
                         nextCategoryId := db.nextCategoryId + 1 }
    ({ db1 with logs := db1.logs ++
        [{ store := some storeId, user := userId, action := LogAction.add,
           instance_kind := LogInstance.category, serial_number := none,
           category_name := some name, instance_id := some c.id }] },
     ActionResult.ok)

/-- `RouterView.put` (`main/views.py` lines 809-839): manager-only; the
router is looked up scoped to the store (an absent router makes the
attribute assignments raise, failing the request with no write); the
database's unique constraint on `serial_number` makes `router.save()` raise
when the new serial collides with another row; on success the fields are
overwritten, saved, and one `edit` log row is written. -/
def editRouter (db : DB) (userId storeId : Nat) (role : String) (routerId : Nat)
    (categoryId : Option Nat) (serial : String) (emei : Option String)
    (status : Status) : DB × ActionResult :=
  if role ≠ "store_manager" then (db, ActionResult.err "You don't have enough permissions")
  else
    match (db.routers.filter (fun r =>
        decide (r.store = some storeId ∧ r.id = routerId))).head? with
    | none => (db, ActionResult.err "An error occured while processing the request")
    | some r =>
      if db.routers.any (fun (row : Router) =>
          decide (row.serial_number = serial ∧ row.id ≠ r.id))
      then (db, ActionResult.err "An error occured while processing the request")
      else
      let cat? := match categoryId with
        | none => none
        | some cid => ((db.categories.filter (fun c => decide (c.id = cid))).head?).map
            (fun c => c.id)
      let r' := { r with category := cat?, serial_number := serial,
                         emei := emei, status := status }
      let db1 := saveRouter db r'
      ({ db1 with logs := db1.logs ++
          [{ store := some storeId, user := userId, action := LogAction.edit,
             instance_kind := LogInstance.router, serial_number := some serial,
             category_name := none, instance_id := some r.id }] },
       ActionResult.ok)

/-- `RouterView.delete` (`main/views.py` lines 841-862): manager-only; a
found router is soft-deleted and one `delete` log row is written. -/
def deleteRouter (db : DB) (userId storeId : Nat) (role : String)
    (routerId : Nat) : DB × ActionResult :=
  if role ≠ "store_manager" then (db, ActionResult.err "You don't have enough permissions")
  else
    match (db.routers.filter (fun r =>
        decide (r.store = some storeId ∧ r.id = routerId))).head? with
    | none => (db, ActionResult.err "An error occured while processing the request")
    | some r =>
      let r' := { r with deleted := true }
      let db1 := saveRouter db r'
      ({ db1 with logs := db1.logs ++
          [{ store := some storeId, user := userId, action := LogAction.delete,
             instance_kind := LogInstance.router, serial_number := some r.serial_number,
             category_name := none, instance_id := some r.id }] },
       ActionResult.ok)

/-- `instance.save()` on a category: replace the row carrying this
primary key. -/
def saveCategory (db : DB) (c : Category) : DB :=
  { db with categories := db.categories.map (fun row => if row.id = c.id then c else row) }

/-- `CategoryView.put` (`main/views.py` lines 687-715): manager-only; a
found category gets its name and type overwritten, saved, and one `edit`
log row written. -/
def editCategory (db : DB) (userId storeId : Nat) (role : String) (catId : Nat)
    (name ctype : String) : DB × ActionResult :=
  if role ≠ "store_manager" then (db, ActionResult.err "You don't have enough permissions")
  else
    match (db.categories.filter (fun c =>
        decide (c.store = storeId ∧ c.id = catId))).head? with
    | none => (db, ActionResult.err "An error occured while processing the request")
    | some c =>
      let c' := { c with name := name, type := ctype }
      let db1 := saveCategory db c'
      ({ db1 with logs := db1.logs ++
          [{ store := some storeId, user := userId, action := LogAction.edit,
             instance_kind := LogInstance.category, serial_number := none,
             category_name := some c'.name, instance_id := some c.id }] },
       ActionResult.ok)

/-- `CategoryView.delete` (`main/views.py` lines 717-739): manager-only; a
found category is soft-deleted and one `delete` log row is written. -/
def deleteCategory (db : DB) (userId storeId : Nat) (role : String)
    (catId : Nat) : DB × ActionResult :=
  if role ≠ "store_manager" then (db, ActionResult.err "You don't have enough permissions")
  else
    match (db.categories.filter (fun c =>
        decide (c.store = storeId ∧ c.id = catId))).head? with
    | none => (db, ActionResult.err "Something wrong hapenned")
    | some c =>
      let c' := { c with deleted := true }
      let db1 := saveCategory db c'
      ({ db1 with logs := db1.logs ++
          [{ store := some storeId, user := userId, action := LogAction.delete,
             instance_kind := LogInstance.category, serial_number := none,
             category_name := some c.name, instance_id := some c.id }] },
       ActionResult.ok)

/-! ## Generic list lemmas -/

theorem filter_map_of_pres {α : Type} (p : α → Bool) (f : α → α) :
    ∀ l : List α, (∀ x ∈ l, p (f x) = p x) → (l.map f).filter p = (l.filter p).map f := by
  intro l h
  induction l with
  | nil => rfl
  | cons a t ih =>
    have ha := h a (List.mem_cons_self a t)
    have ht : ∀ x ∈ t, p (f x) = p x := fun x hx => h x (List.mem_cons_of_mem a hx)
    by_cases hpa : p a = true
    · simp [List.filter_cons, hpa, ha, ih ht]
    · have : p a = false := Bool.eq_false_iff.2 hpa
      simp [List.filter_cons, this, ha, ih ht]

theorem head?_filter_spec {α : Type} (p : α → Bool) (l : List α) (a : α)
    (h : (l.filter p).head? = some a) : a ∈ l ∧ p a := by
  rcases hf : l.filter p with _ | ⟨b, t⟩
  · rw [hf] at h; exact absurd h (by simp)
  · rw [hf] at h
    simp only [List.head?_cons, Option.some.injEq] at h
    have hb : b ∈ l.filter p := by rw [hf]; exact List.mem_cons_self b t
    exact h ▸ List.mem_filter.1 hb

theorem eq_of_id_nodup {α : Type} (f : α → Nat) (l : List α)
    (hnd : (l.map f).Nodup) (a b : α) (ha : a ∈ l) (hb : b ∈ l) (hf : f a = f b) :
    a = b :=
  List.inj_on_of_nodup_map hnd ha hb hf

/-! ## Router lookup lemmas -/

theorem findScoped_spec (rs : List Router) (sId : Nat) (sn : String) (r : Router)
    (h : findScoped rs sId sn = some r) :
    r ∈ rs ∧ r.store = some sId ∧ r.serial_number = sn := by
  have := head?_filter_spec _ rs r h
  refine ⟨this.1, ?_⟩
  have hp := this.2
  simp only [decide_eq_true_eq] at hp
  exact hp

theorem findScoped_update (rs : List Router) (sId : Nat) (sn : String) (r r' : Router)
    (hnd : (rs.map Router.id).Nodup) (h : findScoped rs sId sn = some r)
    (hid : r'.id = r.id) (hst : r'.store = some sId) (hsn : r'.serial_number = sn) :
    findScoped (rs.map (fun row => if row.id = r.id then r' else row)) sId sn = some r' := by
  have hmem := findScoped_spec rs sId sn r h
  set p : Router → Bool :=
    fun x => decide (x.store = some sId ∧ x.serial_number = sn) with hp
  have hpres : ∀ x ∈ rs, p (if x.id = r.id then r' else x) = p x := by
    intro x hx
    by_cases hxid : x.id = r.id
    · have hxr : x = r := eq_of_id_nodup Router.id rs hnd x r hx hmem.1 hxid
      subst hxr
      simp [hp, hst, hsn, hmem.2.1, hmem.2.2]
    · simp [if_neg hxid]
  unfold findScoped at h ⊢
  rw [filter_map_of_pres p _ rs hpres, List.head?_map, h]
  simp [hid]

/-! ## `applyAction` branch lemmas -/

theorem resolve1_of_found (db : DB) (sId : Nat) (a : ActionType) (sn : String)
    (r : Router) (h : findScoped db.routers sId sn = some r) :
    resolve1 db sId a sn = (db, some r) := by
  unfold resolve1
  rw [h]

theorem finishAction_no_r2 (db : DB) (sId uId : Nat) (a : ActionType) (r1 : Router)
    (r2ref : Option Nat) (reason comment ord : Option String) :
    finishAction db sId uId a r1 none r2ref reason comment ord =
      ({ db with
          actions := db.actions ++
            [{ store := some sId, user := uId, action := a, order_number := ord,
               router := some r1.id, router2 := r2ref, reason := reason,
               comment := comment }],
          routers := db.routers.map (fun row => if row.id = r1.id then r1 else row) },
       ActionResult.ok) := rfl

/-! ## Test fixtures (used by witnesses and counterexamples) -/

/-- A store with id 0 and alert threshold 5. -/
def exStore : Store := { id := 0, alert_on := 5 }

/-- A category of `exStore` with alert threshold 5. -/
def exCat : Category :=
  { id := 0, name := "cat", store := 0, type := "indoor",
    deleted := false, alerted := false, alert_on := 5 }

/-- An in-stock router of `exStore` with serial number `X`. -/
def exRouter : Router :=
  { id := 0, store := some 0, category := some 0, serial_number := "X",
    emei := none, status := Status.in_stock, reason := none, deleted := false }

/-- A database holding one store, one category and one in-stock router. -/
def exDB : DB :=
  { stores := [exStore], categories := [exCat], routers := [exRouter],
    actions := [], logs := [], monitoring := [], notifications := [],
    nextRouterId := 1, nextCategoryId := 1 }

/-! ## C1 -/

/-- C1: for every router resolved in the acting store, `sale` succeeds
exactly from `in_stock` and moves the router to `new_sale`; a second `sale`
without an intervening `collect` fails with the distinguishing
`InvalidTransition` message ("already sold" / "already collected" / "not in
stock"); `collect` succeeds exactly from `in_stock` or `new_sale`, moves the
router to `collected`, and fails from `collected` ("already collected") and
from `return` ("not sold"). -/
theorem sale_collect_transitions (db : DB) (sId uId : Nat) (sn : String)
    (ord rr sr cm : Option String) (r : Router)
    (hnd : (db.routers.map Router.id).Nodup)
    (h : findScoped db.routers sId sn = some r) :
    (((applyAction db sId uId ActionType.sale sn none ord rr sr cm).2 = ActionResult.ok)
        ↔ r.status = Status.in_stock)
    ∧ (r.status = Status.in_stock →
        (applyAction db sId uId ActionType.sale sn none ord rr sr cm).1.routers =
          db.routers.map (fun row =>
            if row.id = r.id then { r with status := Status.new_sale } else row)
        ∧ (applyAction ((applyAction db sId uId ActionType.sale sn none ord rr sr cm).1)
             sId uId ActionType.sale sn none ord rr sr cm).2 =
            ActionResult.err "This router is already sold.")
    ∧ (r.status = Status.new_sale →
        applyAction db sId uId ActionType.sale sn none ord rr sr cm =
          (db, ActionResult.err "This router is already sold."))
    ∧ (r.status = Status.collected →
        applyAction db sId uId ActionType.sale sn none ord rr sr cm =
          (db, ActionResult.err "This router is already collected."))
    ∧ (r.status = Status.ret →
        applyAction db sId uId ActionType.sale sn none ord rr sr cm =
          (db, ActionResult.err "This router is not in stock."))
    ∧ (((applyAction db sId uId ActionType.collect sn none ord rr sr cm).2 = ActionResult.ok)
        ↔ (r.status = Status.in_stock ∨ r.status = Status.new_sale))
    ∧ ((r.status = Status.in_stock ∨ r.status = Status.new_sale) →
        (applyAction db sId uId ActionType.collect sn none ord rr sr cm).1.routers =
          db.routers.map (fun row =>
            if row.id = r.id then { r with status := Status.collected } else row))
    ∧ (r.status = Status.collected →
        applyAction db sId uId ActionType.collect sn none ord rr sr cm =
          (db, ActionResult.err "This router is already collected."))
    ∧ (r.status = Status.ret →
        applyAction db sId uId ActionType.collect sn none ord rr sr cm =
          (db, ActionResult.err "This router is not sold.")) := by
  have hspec := findScoped_spec db.routers sId sn r h
  refine ⟨?_, ?_, ?_, ?_, ?_, ?_, ?_, ?_, ?_⟩
  · cases hs : r.status <;>
      (unfold applyAction; rw [resolve1_of_found db sId ActionType.sale sn r h];
       simp [resolve2, hs, finishAction])
  · intro hs
    have hfst : (applyAction db sId uId ActionType.sale sn none ord rr sr cm).1.routers =
        db.routers.map (fun row =>
          if row.id = r.id then { r with status := Status.new_sale } else row) := by
      unfold applyAction
      rw [resolve1_of_found db sId ActionType.sale sn r h]
      simp [resolve2, hs, finishAction, saveRouter]
    refine ⟨hfst, ?_⟩
    set dbA := (applyAction db sId uId ActionType.sale sn none ord rr sr cm).1 with hdbA
    have h2 : findScoped dbA.routers sId sn = some { r with status := Status.new_sale } := by
      rw [hfst]
      exact findScoped_update db.routers sId sn r _ hnd h rfl hspec.2.1 hspec.2.2
    unfold applyAction
    rw [resolve1_of_found dbA sId ActionType.sale sn _ h2]
    simp [resolve2]
  · intro hs
    unfold applyAction
    rw [resolve1_of_found db sId ActionType.sale sn r h]
    simp [resolve2, hs]
  · intro hs
    unfold applyAction
    rw [resolve1_of_found db sId ActionType.sale sn r h]
    simp [resolve2, hs]
  · intro hs
    unfold applyAction
    rw [resolve1_of_found db sId ActionType.sale sn r h]
    simp [resolve2, hs]
  · cases hs : r.status <;>
      (unfold applyAction; rw [resolve1_of_found db sId ActionType.collect sn r h];
       simp [resolve2, hs, finishAction])
  · intro hs
    unfold applyAction
    rw [resolve1_of_found db sId ActionType.collect sn r h]
    rcases hs with hs | hs <;> simp [resolve2, hs, finishAction, saveRouter]
  · intro hs
    unfold applyAction
    rw [resolve1_of_found db sId ActionType.collect sn r h]
    simp [resolve2, hs]
  · intro hs
    unfold applyAction
    rw [resolve1_of_found db sId ActionType.collect sn r h]
    simp [resolve2, hs]

/-- Witness for C1 on the concrete one-router database. -/
theorem sale_collect_transitions_witness :
    ((List.map Router.id exDB.routers).Nodup
      ∧ findScoped exDB.routers 0 "X" = some exRouter)
    ∧ (((applyAction exDB 0 7 ActionType.sale "X" none none none none none).2 =
          ActionResult.ok) ↔ exRouter.status = Status.in_stock) := by
  have hnd : (List.map Router.id exDB.routers).Nodup := by decide
  have h : findScoped exDB.routers 0 "X" = some exRouter := by rfl
  exact ⟨⟨hnd, h⟩,
    (sale_collect_transitions exDB 0 7 "X" none none none none exRouter hnd h).1⟩

/-! ## C6 -/

theorem resolve1_fallback_found (db : DB) (sId : Nat) (a : ActionType) (sn : String)
    (r : Router) (hn : findScoped db.routers sId sn = none)
    (ha : a = ActionType.ret ∨ a = ActionType.swap)
    (hg : findGlobal db.routers sn = some r) :
    resolve1 db sId a sn = (db, some r) := by
  unfold resolve1
  rw [hn]
  dsimp only
  rw [if_pos ha, hg]

/-- C6: `return` and `swap` succeed from every current status of the primary
router — whether it was resolved scoped to the acting store or, on a scoped
miss, found globally as another store's router; `return` sets the primary
router's status to `return`, `swap` sets the primary to `collected` and the
secondary to `swap`, and in both cases the primary router's store is
reassigned to the acting store (a genuine repatriation in the cross-store
fallback case, where `r.store` was a different store's id). -/
theorem return_swap_permissive (db : DB) (sId uId : Nat) (sn : String)
    (ord rr sr cm : Option String) (r : Router)
    (hres : findScoped db.routers sId sn = some r
      ∨ (findScoped db.routers sId sn = none
          ∧ findGlobal db.routers sn = some r)) :
    (applyAction db sId uId ActionType.ret sn none ord rr sr cm =
      ({ db with
          actions := db.actions ++
            [{ store := some sId, user := uId, action := ActionType.ret,
               order_number := none, router := some r.id, router2 := none,
               reason := rr, comment := cm }],
          routers := db.routers.map (fun row =>
            if row.id = r.id then
              { r with status := Status.ret, reason := rr, store := some sId }
            else row) },
       ActionResult.ok))
    ∧ (∀ sn2 r2, findGlobal db.routers sn2 = some r2 →
        applyAction db sId uId ActionType.swap sn (some sn2) ord rr sr cm =
          ({ db with
              actions := db.actions ++
                [{ store := some sId, user := uId, action := ActionType.swap,
                   order_number := none, router := some r.id, router2 := some r2.id,
                   reason := sr, comment := cm }],
              routers := (db.routers.map (fun row =>
                  if row.id = r.id then
                    { r with status := Status.collected, store := some sId }
                  else row)).map (fun row =>
                  if row.id = r2.id then
                    { r2 with status := Status.swap, reason := rr }
                  else row) },
           ActionResult.ok)) := by
  have hr1ret : resolve1 db sId ActionType.ret sn = (db, some r) := by
    rcases hres with h | ⟨hn, hg⟩
    · exact resolve1_of_found db sId ActionType.ret sn r h
    · exact resolve1_fallback_found db sId ActionType.ret sn r hn (Or.inl rfl) hg
  have hr1swap : resolve1 db sId ActionType.swap sn = (db, some r) := by
    rcases hres with h | ⟨hn, hg⟩
    · exact resolve1_of_found db sId ActionType.swap sn r h
    · exact resolve1_fallback_found db sId ActionType.swap sn r hn (Or.inr rfl) hg
  constructor
  · unfold applyAction
    rw [hr1ret]
    simp [resolve2, finishAction, saveRouter]
  · intro sn2 r2 hg
    unfold applyAction
    rw [hr1swap]
    simp only [resolve2, hg]
    simp [finishAction, saveRouter]

/-- A router with serial `X` held by a different store (id 3) than the
example store. -/
def exRouterFar : Router :=
  { id := 0, store := some 3, category := none, serial_number := "X",
    emei := none, status := Status.collected, reason := none, deleted := false }

/-- A database whose only router belongs to store 3, while the acting store
of the witness is store 0. -/
def exDBFar : DB :=
  { stores := [exStore], categories := [], routers := [exRouterFar],
    actions := [], logs := [], monitoring := [], notifications := [],
    nextRouterId := 1, nextCategoryId := 1 }

/-- Witness for C6 in the cross-store case: the scoped lookup for store 0
misses, the global lookup finds store 3's router, and the `return` succeeds
and reassigns the router's store from 3 to the acting store 0. -/
theorem return_swap_permissive_witness :
    (findScoped exDBFar.routers 0 "X" = none
      ∧ findGlobal exDBFar.routers "X" = some exRouterFar
      ∧ exRouterFar.store = some 3)
    ∧ (applyAction exDBFar 0 7 ActionType.ret "X" none none (some "gone") none none).2 =
        ActionResult.ok
    ∧ (applyAction exDBFar 0 7 ActionType.ret "X" none none (some "gone") none
        none).1.routers.map Router.store = [some 0]
    ∧ (applyAction exDBFar 0 7 ActionType.ret "X" none none (some "gone") none
        none).1.routers.map Router.status = [Status.ret] := by
  have hn : findScoped exDBFar.routers 0 "X" = none := by rfl
  have hg : findGlobal exDBFar.routers "X" = some exRouterFar := by rfl
  have heq := (return_swap_permissive exDBFar 0 7 "X" none (some "gone") none none
    exRouterFar (Or.inr ⟨hn, hg⟩)).1
  rw [heq]
  exact ⟨⟨hn, hg, rfl⟩, rfl, rfl, rfl⟩

/-! ## C7 -/

theorem resolve1_snd_isSome_of_fallback (db : DB) (sId : Nat) (a : ActionType)
    (sn : String) (ha : a = ActionType.ret ∨ a = ActionType.swap) :
    ∃ r1, (resolve1 db sId a sn).2 = some r1 := by
  unfold resolve1
  cases hfs : findScoped db.routers sId sn with
  | some r => exact ⟨r, rfl⟩
  | none =>
    rw [if_pos ha]
    cases hg : findGlobal db.routers sn with
    | some r => exact ⟨r, rfl⟩
    | none => exact ⟨_, rfl⟩

theorem resolve1_miss (db : DB) (sId : Nat) (a : ActionType) (sn : String)
    (hn : findScoped db.routers sId sn = none)
    (ha : a = ActionType.sale ∨ a = ActionType.collect) :
    resolve1 db sId a sn = (db, none) := by
  unfold resolve1
  rw [hn]
  rcases ha with rfl | rfl <;> simp

theorem applyAction_not_notfound (db : DB) (sId uId : Nat) (a : ActionType)
    (sn : String) (sn2 : Option String) (ord rr sr cm : Option String)
    (router1 : Router) (hres : (resolve1 db sId a sn).2 = some router1) :
    (applyAction db sId uId a sn sn2 ord rr sr cm).2 ≠
      ActionResult.err "We can't find the router with the provided details" := by
  unfold applyAction
  rcases hr1 : resolve1 db sId a sn with ⟨db1, r1opt⟩
  rw [hr1] at hres
  simp only at hres
  subst hres
  rcases hp : resolve2 db1 sId sn2 with ⟨db2, r2opt⟩
  cases a with
  | ret => cases r2opt <;> simp [hp, finishAction]
  | swap => cases r2opt <;> simp [hp, finishAction]
  | collect => cases hs : router1.status <;> cases r2opt <;> simp [hp, hs, finishAction]
  | sale => cases hs : router1.status <;> cases r2opt <;> simp [hp, hs, finishAction]

/-- C7: the primary router is resolved scoped to the requesting store first;
a miss falls back, for `return`/`swap` only, to a global lookup that creates
a fresh router when the serial number is absent everywhere; and the request
fails with the router-not-found message exactly when the scoped lookup
misses and the action is `sale` or `collect`. -/
theorem router_resolution (db : DB) (sId uId : Nat) (a : ActionType) (sn : String)
    (sn2 : Option String) (ord rr sr cm : Option String) :
    (∀ r, findScoped db.routers sId sn = some r → resolve1 db sId a sn = (db, some r))
    ∧ (findScoped db.routers sId sn = none →
        (a = ActionType.ret ∨ a = ActionType.swap) →
        (∀ r, findGlobal db.routers sn = some r → resolve1 db sId a sn = (db, some r))
        ∧ (findGlobal db.routers sn = none →
            resolve1 db sId a sn =
              ({ db with routers := db.routers ++ [newRouter db.nextRouterId sn],
                         nextRouterId := db.nextRouterId + 1 },
               some { newRouter db.nextRouterId sn with store := some sId })))
    ∧ (((applyAction db sId uId a sn sn2 ord rr sr cm).2 =
          ActionResult.err "We can't find the router with the provided details")
        ↔ (findScoped db.routers sId sn = none
            ∧ (a = ActionType.sale ∨ a = ActionType.collect))) := by
  refine ⟨?_, ?_, ?_⟩
  · exact fun r hr => resolve1_of_found db sId a sn r hr
  · intro hn ha
    constructor
    · intro r hg
      unfold resolve1
      rw [hn]
      simp [ha, hg]
    · intro hg
      unfold resolve1
      rw [hn]
      simp [ha, hg]
  · constructor
    · intro hmsg
      cases hfs : findScoped db.routers sId sn with
      | some r =>
        have : (resolve1 db sId a sn).2 = some r := by
          rw [resolve1_of_found db sId a sn r hfs]
        exact absurd hmsg (applyAction_not_notfound db sId uId a sn sn2 ord rr sr cm r this)
      | none =>
        refine ⟨rfl, ?_⟩
        cases a with
        | sale => exact Or.inl rfl
        | collect => exact Or.inr rfl
        | ret =>
          obtain ⟨r1, hr1⟩ := resolve1_snd_isSome_of_fallback db sId ActionType.ret sn
            (Or.inl rfl)
          exact absurd hmsg
            (applyAction_not_notfound db sId uId ActionType.ret sn sn2 ord rr sr cm r1 hr1)
        | swap =>
          obtain ⟨r1, hr1⟩ := resolve1_snd_isSome_of_fallback db sId ActionType.swap sn
            (Or.inr rfl)
          exact absurd hmsg
            (applyAction_not_notfound db sId uId ActionType.swap sn sn2 ord rr sr cm r1 hr1)
    · rintro ⟨hn, ha⟩
      unfold applyAction
      rw [resolve1_miss db sId a sn hn ha]

/-- Witness for C7: a `sale` on the serial number of a router held by a
different store fails with the router-not-found message. -/
theorem router_resolution_witness :
    findScoped exDB.routers 3 "X" = none
    ∧ (applyAction exDB 3 7 ActionType.sale "X" none none none none none).2 =
        ActionResult.err "We can't find the router with the provided details" := by
  have h : findScoped exDB.routers 3 "X" = none := by rfl
  exact ⟨h, (router_resolution exDB 3 7 ActionType.sale "X" none none none
    none none).2.2.2 ⟨h, Or.inl rfl⟩⟩

/-! ## C8 -/

theorem findGlobal_none_spec (rs : List Router) (sn : String)
    (h : findGlobal rs sn = none) : ∀ row ∈ rs, row.serial_number ≠ sn := by
  unfold findGlobal at h
  rw [List.head?_eq_none_iff, List.filter_eq_nil_iff] at h
  intro row hrow
  have := h row hrow
  simpa using this

/-- Counterexample to C8 as stated: swapping store 0's router `X` against a
nonexistent serial `Y` creates `Y` with its store set to the acting store
(`some 0`), not left unset. -/
theorem swap_secondary_store_counterexample :
    ((applyAction exDB 0 7 ActionType.swap "X" (some "Y") none (some "rr") (some "sr")
        none).1.routers.filter (fun r => decide (r.serial_number = "Y"))).map Router.store =
      [some 0]
    ∧ ([some 0] : List (Option Nat)) ≠ [none] := by
  constructor
  · rfl
  · simp

/-- C8 (amended): `swap` on a store-resolved primary `X` with a globally
absent secondary serial `Y` creates the `Y` row, sets `X` to `collected`
with its store kept at the acting store, sets `Y` to `swap` with its store
assigned to the acting store (not left unset), and appends exactly one
`Action` row referencing `X` as primary and the new `Y` row as secondary. -/
theorem swap_creates_secondary (db : DB) (sId uId : Nat) (sn1 sn2 : String)
    (ord rr sr cm : Option String) (r : Router)
    (h1 : findScoped db.routers sId sn1 = some r)
    (h2 : findGlobal db.routers sn2 = none)
    (hfresh : ∀ row ∈ db.routers, row.id ≠ db.nextRouterId) :
    applyAction db sId uId ActionType.swap sn1 (some sn2) ord rr sr cm =
      ({ db with
          actions := db.actions ++
            [{ store := some sId, user := uId, action := ActionType.swap,
               order_number := none, router := some r.id,
               router2 := some db.nextRouterId, reason := sr, comment := cm }],
          routers := ((db.routers ++ [newRouter db.nextRouterId sn2]).map (fun row =>
              if row.id = r.id then { r with status := Status.collected, store := some sId }
              else row)).map (fun row =>
              if row.id = db.nextRouterId then
                { newRouter db.nextRouterId sn2 with
                    store := some sId, status := Status.swap, reason := rr }
              else row),
          nextRouterId := db.nextRouterId + 1 },
       ActionResult.ok)
    ∧ ((applyAction db sId uId ActionType.swap sn1 (some sn2) ord rr sr cm).1.routers.filter
          (fun row => decide (row.serial_number = sn2))) =
        [{ newRouter db.nextRouterId sn2 with
             store := some sId, status := Status.swap, reason := rr }] := by
  have hrspec := findScoped_spec db.routers sId sn1 r h1
  have hser : ∀ row ∈ db.routers, row.serial_number ≠ sn2 := findGlobal_none_spec _ _ h2
  have hsn12 : sn1 ≠ sn2 := by
    intro heq
    exact hser r hrspec.1 (hrspec.2.2.trans heq)
  have hmain : applyAction db sId uId ActionType.swap sn1 (some sn2) ord rr sr cm =
      ({ db with
          actions := db.actions ++
            [{ store := some sId, user := uId, action := ActionType.swap,
               order_number := none, router := some r.id,
               router2 := some db.nextRouterId, reason := sr, comment := cm }],
          routers := ((db.routers ++ [newRouter db.nextRouterId sn2]).map (fun row =>
              if row.id = r.id then { r with status := Status.collected, store := some sId }
              else row)).map (fun row =>
              if row.id = db.nextRouterId then
                { newRouter db.nextRouterId sn2 with
                    store := some sId, status := Status.swap, reason := rr }
              else row),
          nextRouterId := db.nextRouterId + 1 },
       ActionResult.ok) := by
    unfold applyAction
    rw [resolve1_of_found db sId ActionType.swap sn1 r h1]
    simp only [resolve2, h2]
    simp [finishAction, saveRouter, newRouter]
  refine ⟨hmain, ?_⟩
  rw [hmain]
  simp only [List.map_append, List.filter_append]
  have hA : ((db.routers.map (fun row =>
      if row.id = r.id then { r with status := Status.collected, store := some sId }
      else row)).map (fun row =>
      if row.id = db.nextRouterId then
        { newRouter db.nextRouterId sn2 with
            store := some sId, status := Status.swap, reason := rr }
      else row)).filter (fun row => decide (row.serial_number = sn2)) = [] := by
    rw [List.filter_eq_nil_iff]
    intro x hx
    rw [List.mem_map] at hx
    obtain ⟨y, hy, hyx⟩ := hx
    rw [List.mem_map] at hy
    obtain ⟨z, hz, hzy⟩ := hy
    subst hzy
    subst hyx
    by_cases hzr : z.id = r.id
    · simp only [if_pos hzr]
      have hne : r.id ≠ db.nextRouterId := hfresh r hrspec.1
      simp only [if_neg hne]
      simp only [decide_eq_true_eq]
      exact fun hc => hsn12 (hrspec.2.2.symm.trans hc)
    · simp only [if_neg hzr]
      have hne : z.id ≠ db.nextRouterId := hfresh z hz
      simp only [if_neg hne]
      simp only [decide_eq_true_eq]
      exact hser z hz
  rw [hA]
  have hnr : ¬ (db.nextRouterId = r.id) := fun hc => (hfresh r hrspec.1) hc.symm
  simp [hnr, newRouter]

/-- Witness for C8's amended theorem on the concrete database. -/
theorem swap_creates_secondary_witness :
    (findScoped exDB.routers 0 "X" = some exRouter
      ∧ findGlobal exDB.routers "Y" = none)
    ∧ ((applyAction exDB 0 7 ActionType.swap "X" (some "Y") none (some "rr") (some "sr")
          none).1.routers.filter (fun row => decide (row.serial_number = "Y"))) =
        [{ newRouter 1 "Y" with
             store := some 0, status := Status.swap, reason := some "rr" }] := by
  have h1 : findScoped exDB.routers 0 "X" = some exRouter := by rfl
  have h2 : findGlobal exDB.routers "Y" = none := by rfl
  have hfresh : ∀ row ∈ exDB.routers, row.id ≠ exDB.nextRouterId := by decide
  exact ⟨⟨h1, h2⟩, (swap_creates_secondary exDB 0 7 "X" "Y" none (some "rr") (some "sr")
    none exRouter h1 h2 hfresh).2⟩

/-! ## C4 -/

/-- The notifications of the given store created since today's midnight. -/
def notifToday (db : DB) (today : Int) (s : Store) : List NotificationRow :=
  db.notifications.filter (fun n => decide (n.store = s.id ∧ today ≤ n.date_sent))

theorem router_changed_step (db : DB) (today : Int) (s : Store) :
    (notifToday db today s ≠ [] → router_changed db today s = db)
    ∧ ((notifToday (router_changed db today s) today s).length ≤
        max (notifToday db today s).length 1) := by
  unfold router_changed notifToday
  split
  · rename_i hcond
    constructor
    · intro hne
      exact absurd hcond.2 hne
    · simp only [List.filter_append]
      rw [hcond.2]
      simp
  · exact ⟨fun _ => rfl, by simp⟩

/-- C4: at most one `Notification` row per store and calendar day: the
`router_changed` threshold check creates a row only when none exists for
the store since today's midnight, and any number of sequential triggers on
a day that starts with at most one such row leaves at most one such row. -/
theorem notification_once_per_day (db : DB) (today : Int) (s : Store)
    (h : (notifToday db today s).length ≤ 1) :
    (∀ db' : DB, router_changed db' today s ≠ db' → notifToday db' today s = [])
    ∧ (∀ n : Nat, (notifToday (iterChanged today s db n) today s).length ≤ 1) := by
  constructor
  · intro db' hne
    by_cases hcond : (Store.count_routers s db'.routers : Int) < s.alert_on
        ∧ db'.notifications.filter
            (fun n => decide (n.store = s.id ∧ today ≤ n.date_sent)) = []
    · exact hcond.2
    · exact absurd (by unfold router_changed; rw [if_neg hcond]) hne
  · intro n
    induction n with
    | zero => exact h
    | succ k ih =>
      have hstep := (router_changed_step (iterChanged today s db k) today s).2
      calc (notifToday (iterChanged today s db (k + 1)) today s).length
          ≤ max (notifToday (iterChanged today s db k) today s).length 1 := hstep
        _ ≤ 1 := by omega

/-- Witness for C4: three triggers on the example database with a low stock
level leave exactly one notification row, hence at most one. -/
theorem notification_once_per_day_witness :
    (notifToday exDB 10 exStore).length ≤ 1
    ∧ (notifToday (iterChanged 10 exStore exDB 3) 10 exStore).length ≤ 1 := by
  have h : (notifToday exDB 10 exStore).length ≤ 1 := by decide
  exact ⟨h, (notification_once_per_day exDB 10 exStore h).2 3⟩

/-! ## C9 and C10: characterization of `create_alerts` -/

/-- The category rows carrying a given primary key. -/
def catRowsById (cats : List Category) (cId : Nat) : List Category :=
  cats.filter (fun c => decide (c.id = cId))

theorem catRowsById_singleton (l : List Category) (c : Category)
    (hnd : (l.map Category.id).Nodup) (hc : c ∈ l) : catRowsById l c.id = [c] := by
  induction l with
  | nil => exact absurd hc (List.not_mem_nil c)
  | cons a t ih =>
    rw [List.map_cons, List.nodup_cons] at hnd
    rcases List.mem_cons.1 hc with rfl | hct
    · unfold catRowsById
      rw [List.filter_cons]
      simp only [decide_eq_true_eq, if_pos rfl, decide_True]
      have ht : t.filter (fun x => decide (x.id = c.id)) = [] := by
        rw [List.filter_eq_nil_iff]
        intro x hx
        simp only [decide_eq_true_eq]
        intro hxe
        exact hnd.1 (hxe ▸ List.mem_map_of_mem Category.id hx)
      unfold catRowsById at ht
      rw [ht]
      simp
    · have hane : ¬ (a.id = c.id) := by
        intro hae
        exact hnd.1 (hae ▸ List.mem_map_of_mem Category.id hct)
      unfold catRowsById
      rw [List.filter_cons]
      simp only [hane, decide_False, if_neg]
      exact ih hnd.2 hct

theorem alertFold_id_map (rs : List Router) (cats : List Category) (c : Category) :
    (alertFold rs cats c).map Category.id = cats.map Category.id := by
  unfold alertFold
  split
  · rw [List.map_map]
    refine List.map_congr_left ?_
    intro x _
    by_cases hx : x.id = c.id
    · simp [hx]
    · simp [hx]
  · rfl

theorem alertFold_frame (rs : List Router) (cats : List Category) (c : Category)
    (cId : Nat) (hne : cId ≠ c.id) :
    catRowsById (alertFold rs cats c) cId = catRowsById cats cId := by
  unfold alertFold
  split
  · unfold catRowsById
    rw [filter_map_of_pres _ _ cats ?hpres]
    case hpres =>
      intro x _
      by_cases hx : x.id = c.id
      · simp [hx, hne.symm, Ne.symm (hx ▸ hne)]
      · simp [hx]
    refine List.map_congr_left ?_ |>.trans (List.map_id _)
    intro x hx
    have := (List.mem_filter.1 hx).2
    simp only [decide_eq_true_eq] at this
    rw [if_neg (this ▸ hne.symm ∘ Eq.symm)]
    rfl
  · rfl

theorem alertFold_self (rs : List Router) (cats : List Category) (c : Category) :
    catRowsById (alertFold rs cats c) c.id =
      if (Category.count_routers c rs : Int) < c.alert_on
      then (catRowsById cats c.id).map (fun _ => { c with alerted := true })
      else catRowsById cats c.id := by
  unfold alertFold
  split
  · unfold catRowsById
    rw [filter_map_of_pres _ _ cats ?hpres]
    case hpres =>
      intro x _
      by_cases hx : x.id = c.id
      · simp [hx]
      · simp [hx]
    refine List.map_congr_left ?_
    intro x hx
    have := (List.mem_filter.1 hx).2
    simp only [decide_eq_true_eq] at this
    rw [if_pos this]
  · rfl

theorem foldl_alertFold_frame (rs : List Router) :
    ∀ (cs : List Category) (cats : List Category) (cId : Nat),
      cId ∉ cs.map Category.id →
      catRowsById (List.foldl (alertFold rs) cats cs) cId = catRowsById cats cId := by
  intro cs
  induction cs with
  | nil => intro cats cId _; rfl
  | cons a t ih =>
    intro cats cId hnot
    rw [List.map_cons, List.mem_cons] at hnot
    push_neg at hnot
    rw [List.foldl_cons, ih (alertFold rs cats a) cId hnot.2,
      alertFold_frame rs cats a cId hnot.1]

theorem foldl_alertFold_hit (rs : List Router) :
    ∀ (cs : List Category) (cats : List Category) (c : Category),
      (cs.map Category.id).Nodup → c ∈ cs →
      catRowsById (List.foldl (alertFold rs) cats cs) c.id =
        if (Category.count_routers c rs : Int) < c.alert_on
        then (catRowsById cats c.id).map (fun _ => { c with alerted := true })
        else catRowsById cats c.id := by
  intro cs
  induction cs with
  | nil => intro cats c _ hc; exact absurd hc (List.not_mem_nil c)
  | cons a t ih =>
    intro cats c hnd hc
    rw [List.map_cons, List.nodup_cons] at hnd
    rw [List.foldl_cons]
    rcases List.mem_cons.1 hc with rfl | hct
    · rw [foldl_alertFold_frame rs t (alertFold rs cats c) c.id hnd.1,
        alertFold_self rs cats c]
    · have hne : c.id ≠ a.id := by
        intro hce
        exact hnd.1 (hce ▸ List.mem_map_of_mem Category.id hct)
      rw [ih (alertFold rs cats a) c hnd.2 hct,
        alertFold_frame rs cats a c.id hne]

theorem create_alerts_routers (db : DB) : (create_alerts db).routers = db.routers := rfl

theorem create_alerts_char (db : DB)
    (hnd : (db.categories.map Category.id).Nodup) :
    ∀ c ∈ db.categories,
      catRowsById (create_alerts db).categories c.id =
        if c.alerted = false ∧ (Category.count_routers c db.routers : Int) < c.alert_on
        then [{ c with alerted := true }] else [c] := by
  intro c hc
  have hsingle : catRowsById db.categories c.id = [c] :=
    catRowsById_singleton db.categories c hnd hc
  show catRowsById (List.foldl (alertFold db.routers) db.categories
    (db.categories.filter (fun x => decide (x.alerted = false)))) c.id = _
  set cs := db.categories.filter (fun x => decide (x.alerted = false)) with hcs
  have hcs_nd : (cs.map Category.id).Nodup :=
    ((List.filter_sublist db.categories).map Category.id).nodup hnd
  by_cases ha : c.alerted = false
  · have hmem : c ∈ cs := by
      rw [hcs]
      exact List.mem_filter.2 ⟨hc, by simp [ha]⟩
    rw [foldl_alertFold_hit db.routers cs db.categories c hcs_nd hmem, hsingle]
    by_cases hcnt : (Category.count_routers c db.routers : Int) < c.alert_on
    · rw [if_pos hcnt, if_pos ⟨ha, hcnt⟩]
      rfl
    · rw [if_neg hcnt, if_neg (fun hco => hcnt hco.2)]
  · have hnotin : c.id ∉ cs.map Category.id := by
      intro hin
      rw [List.mem_map] at hin
      obtain ⟨c', hc', hid⟩ := hin
      have hmem' : c' ∈ db.categories := (List.mem_filter.1 (hcs ▸ hc')).1
      have hfalse := (List.mem_filter.1 (hcs ▸ hc')).2
      have : c' = c := eq_of_id_nodup Category.id db.categories hnd c' c hmem' hc hid
      subst this
      simp only [decide_eq_true_eq] at hfalse
      exact ha hfalse
    rw [foldl_alertFold_frame db.routers cs db.categories c.id hnotin, hsingle,
      if_neg (fun hco => ha hco.1)]

theorem foldl_alertFold_id_map (rs : List Router) :
    ∀ (cs cats : List Category),
      (List.foldl (alertFold rs) cats cs).map Category.id = cats.map Category.id := by
  intro cs
  induction cs with
  | nil => intro cats; rfl
  | cons a t ih =>
    intro cats
    rw [List.foldl_cons, ih (alertFold rs cats a), alertFold_id_map]

theorem create_alerts_id_map (db : DB) :
    (create_alerts db).categories.map Category.id = db.categories.map Category.id :=
  foldl_alertFold_id_map db.routers _ db.categories

/-- C9: `create_alerts` is a latch: it touches only categories whose
`alerted` flag is false, latching exactly those whose live in-stock count is
strictly below the category threshold, and a second invocation on the
resulting state changes nothing for any category. -/
theorem alert_latch (db : DB) (hnd : (db.categories.map Category.id).Nodup) :
    (create_alerts db).routers = db.routers
    ∧ (∀ c ∈ db.categories,
        catRowsById (create_alerts db).categories c.id =
          if c.alerted = false ∧ (Category.count_routers c db.routers : Int) < c.alert_on
          then [{ c with alerted := true }] else [c])
    ∧ (∀ c ∈ db.categories,
        catRowsById (create_alerts (create_alerts db)).categories c.id =
          catRowsById (create_alerts db).categories c.id) := by
  have hnd1 : ((create_alerts db).categories.map Category.id).Nodup := by
    rw [create_alerts_id_map]
    exact hnd
  refine ⟨rfl, create_alerts_char db hnd, ?_⟩
  intro c hc
  have h1 := create_alerts_char db hnd c hc
  by_cases hcond : c.alerted = false
      ∧ (Category.count_routers c db.routers : Int) < c.alert_on
  · rw [if_pos hcond] at h1
    have hmem1 : { c with alerted := true } ∈ (create_alerts db).categories := by
      have : { c with alerted := true } ∈
          catRowsById (create_alerts db).categories c.id := by
        rw [h1]
        exact List.mem_cons_self _ _
      exact (List.mem_filter.1 this).1
    have h2 := create_alerts_char (create_alerts db) hnd1 _ hmem1
    rw [if_neg (by simp)] at h2
    exact h2.trans h1.symm
  · rw [if_neg hcond] at h1
    have hmem1 : c ∈ (create_alerts db).categories := by
      have : c ∈ catRowsById (create_alerts db).categories c.id := by
        rw [h1]
        exact List.mem_cons_self _ _
      exact (List.mem_filter.1 this).1
    have h2 := create_alerts_char (create_alerts db) hnd1 c hmem1
    rw [if_neg (fun hco => hcond ⟨hco.1, hco.2⟩)] at h2
    exact h2.trans h1.symm

/-- Witness for C9: the example category (3 below its threshold) is latched
by the first call and untouched by the second. -/
theorem alert_latch_witness :
    (List.map Category.id exDB.categories).Nodup
    ∧ catRowsById (create_alerts exDB).categories 0 = [{ exCat with alerted := true }]
    ∧ catRowsById (create_alerts (create_alerts exDB)).categories 0 =
        catRowsById (create_alerts exDB).categories 0 := by
  have hnd : (List.map Category.id exDB.categories).Nodup := by decide
  have hmem : exCat ∈ exDB.categories := List.mem_cons_self _ _
  have h1 := (alert_latch exDB hnd).2.1 exCat hmem
  rw [if_pos (by decide)] at h1
  exact ⟨hnd, h1, (alert_latch exDB hnd).2.2 exCat hmem⟩

/-! ## C10 -/

/-- C10: `create_alerts` ranges over every category in the system whose
`alerted` flag is false — with no restriction to the triggering store and no
exclusion of soft-deleted categories — so any such category whose live
in-stock count is below its threshold is latched, soft-deleted and
foreign-store categories included. -/
theorem alert_scope_global (db : DB) (hnd : (db.categories.map Category.id).Nodup) :
    ∀ c ∈ db.categories, c.alerted = false →
      (Category.count_routers c db.routers : Int) < c.alert_on →
      catRowsById (create_alerts db).categories c.id = [{ c with alerted := true }] := by
  intro c hc ha hcnt
  rw [create_alerts_char db hnd c hc, if_pos ⟨ha, hcnt⟩]

/-- A soft-deleted category that belongs to a different store than the
example store, with no stock and a positive threshold. -/
def exCatDeleted : Category :=
  { id := 5, name := "dead", store := 9, type := "outdoor",
    deleted := true, alerted := false, alert_on := 3 }

/-- A database where the only further category is soft-deleted and belongs
to another store. -/
def exDB2 : DB :=
  { stores := [exStore], categories := [exCat, exCatDeleted], routers := [exRouter],
    actions := [], logs := [], monitoring := [], notifications := [],
    nextRouterId := 1, nextCategoryId := 6 }

/-- Witness for C10: the soft-deleted foreign-store category is latched. -/
theorem alert_scope_global_witness :
    (List.map Category.id exDB2.categories).Nodup
    ∧ exCatDeleted.deleted = true
    ∧ exCatDeleted.store ≠ exStore.id
    ∧ catRowsById (create_alerts exDB2).categories 5 =
        [{ exCatDeleted with alerted := true }] := by
  have hnd : (List.map Category.id exDB2.categories).Nodup := by decide
  have hmem : exCatDeleted ∈ exDB2.categories := by
    exact List.mem_cons_of_mem _ (List.mem_cons_self _ _)
  exact ⟨hnd, rfl, by decide,
    alert_scope_global exDB2 hnd exCatDeleted hmem rfl (by decide)⟩

/-! ## C5 -/

theorem resolve1_logs (db : DB) (sId : Nat) (a : ActionType) (sn : String) :
    (resolve1 db sId a sn).1.logs = db.logs := by
  unfold resolve1
  cases hfs : findScoped db.routers sId sn with
  | some r => rfl
  | none =>
    by_cases ha : a = ActionType.ret ∨ a = ActionType.swap
    · rw [if_pos ha]
      cases hg : findGlobal db.routers sn <;> rfl
    · rw [if_neg ha]

theorem resolve2_logs (db : DB) (sId : Nat) (sn2 : Option String) :
    (resolve2 db sId sn2).1.logs = db.logs := by
  unfold resolve2
  cases sn2 with
  | none => rfl
  | some s =>
    dsimp only
    cases hg : findGlobal db.routers s <;> rfl

theorem applyAction_logs (db : DB) (sId uId : Nat) (a : ActionType) (sn : String)
    (sn2 ord rr sr cm : Option String) :
    (applyAction db sId uId a sn sn2 ord rr sr cm).1.logs = db.logs := by
  unfold applyAction
  rcases hr1 : resolve1 db sId a sn with ⟨db1, r1opt⟩
  have hl1 : db1.logs = db.logs := by
    rw [← resolve1_logs db sId a sn, hr1]
  cases r1opt with
  | none => simpa using hl1
  | some router1 =>
    rcases hp : resolve2 db1 sId sn2 with ⟨db2, r2opt⟩
    have hl2 : db2.logs = db1.logs := by
      rw [← resolve2_logs db1 sId sn2, hp]
    cases a with
    | ret => cases r2opt <;> simp [hp, finishAction, saveRouter, hl2, hl1]
    | swap => cases r2opt <;> simp [hp, finishAction, saveRouter, hl2, hl1]
    | collect =>
      cases hs : router1.status <;> cases r2opt <;>
        simp [hp, hs, finishAction, saveRouter, hl2, hl1]
    | sale =>
      cases hs : router1.status <;> cases r2opt <;>
        simp [hp, hs, finishAction, saveRouter, hl2, hl1]

/-- Counterexample to C5 as stated: a successful `sale` through
`ActionsView.post` — a status-changing mutation — writes no `Log` row at
all: the log table stays empty instead of gaining one `edit` row. -/
theorem action_log_counterexample :
    (applyAction exDB 0 7 ActionType.sale "X" none none none none none).2 =
      ActionResult.ok
    ∧ (applyAction exDB 0 7 ActionType.sale "X" none none none none none).1.logs = []
    ∧ ([] : List LogRow).length ≠ 1 := by
  refine ⟨rfl, rfl, by decide⟩

/-- C5 (amended): the create, edit and soft-delete handlers each write
exactly one `Log` row on success, whose `instance_id` is the mutated
entity's id and whose verb is `add`/`edit`/`delete` respectively — but the
status-changing action handler (`ActionsView.post`) writes no `Log` row at
all, on any path. -/
theorem mutation_log_rows (db : DB) (uId sId : Nat) :
    (∀ (a : ActionType) (sn : String) (sn2 ord rr sr cm : Option String),
        (applyAction db sId uId a sn sn2 ord rr sr cm).1.logs = db.logs)
    ∧ (∀ catId serial c,
        (db.categories.filter (fun x => decide (x.id = catId))).head? = some c →
        findGlobal db.routers serial = none →
        (createRouter db uId sId "store_manager" catId serial).2 = ActionResult.ok
        ∧ (createRouter db uId sId "store_manager" catId serial).1.logs =
            db.logs ++
              [{ store := some sId, user := uId, action := LogAction.add,
                 instance_kind := LogInstance.router, serial_number := some serial,
                 category_name := none, instance_id := some db.nextRouterId }])
    ∧ (∀ name ctype,
        (createCategory db uId sId "store_manager" name ctype).2 = ActionResult.ok
        ∧ (createCategory db uId sId "store_manager" name ctype).1.logs =
            db.logs ++
              [{ store := some sId, user := uId, action := LogAction.add,
                 instance_kind := LogInstance.category, serial_number := none,
                 category_name := some name, instance_id := some db.nextCategoryId }])
    ∧ (∀ routerId catId serial emei status r,
        (db.routers.filter (fun x =>
            decide (x.store = some sId ∧ x.id = routerId))).head? = some r →
        (∀ row ∈ db.routers, row.serial_number = serial → row.id = r.id) →
        (editRouter db uId sId "store_manager" routerId catId serial emei status).2 =
            ActionResult.ok
        ∧ (editRouter db uId sId "store_manager" routerId catId serial emei
              status).1.logs =
            db.logs ++
              [{ store := some sId, user := uId, action := LogAction.edit,
                 instance_kind := LogInstance.router, serial_number := some serial,
                 category_name := none, instance_id := some r.id }])
    ∧ (∀ routerId r,
        (db.routers.filter (fun x =>
            decide (x.store = some sId ∧ x.id = routerId))).head? = some r →
        (deleteRouter db uId sId "store_manager" routerId).2 = ActionResult.ok
        ∧ (deleteRouter db uId sId "store_manager" routerId).1.logs =
            db.logs ++
              [{ store := some sId, user := uId, action := LogAction.delete,
                 instance_kind := LogInstance.router,
                 serial_number := some r.serial_number,
                 category_name := none, instance_id := some r.id }])
    ∧ (∀ catId name ctype c,
        (db.categories.filter (fun x =>
            decide (x.store = sId ∧ x.id = catId))).head? = some c →
        (editCategory db uId sId "store_manager" catId name ctype).2 = ActionResult.ok
        ∧ (editCategory db uId sId "store_manager" catId name ctype).1.logs =
            db.logs ++
              [{ store := some sId, user := uId, action := LogAction.edit,
                 instance_kind := LogInstance.category, serial_number := none,
                 category_name := some name, instance_id := some c.id }])
    ∧ (∀ catId c,
        (db.categories.filter (fun x =>
            decide (x.store = sId ∧ x.id = catId))).head? = some c →
        (deleteCategory db uId sId "store_manager" catId).2 = ActionResult.ok
        ∧ (deleteCategory db uId sId "store_manager" catId).1.logs =
            db.logs ++
              [{ store := some sId, user := uId, action := LogAction.delete,
                 instance_kind := LogInstance.category, serial_number := none,
                 category_name := some c.name, instance_id := some c.id }]) := by
  have hrole : ¬ (("store_manager" : String) ≠ "store_manager") := by simp
  refine ⟨applyAction_logs db sId uId, ?_, ?_, ?_, ?_, ?_, ?_⟩
  · intro catId serial c hcat hser
    unfold createRouter
    rw [if_neg hrole, hser, hcat]
    exact ⟨rfl, rfl⟩
  · intro name ctype
    unfold createCategory
    rw [if_neg hrole]
    exact ⟨rfl, rfl⟩
  · intro routerId catId serial emei status r hr hser
    have hany : (db.routers.any (fun row =>
        decide (row.serial_number = serial ∧ row.id ≠ r.id))) = false := by
      rw [List.any_eq_false]
      intro row hrow
      simp only [decide_eq_true_eq, not_and, not_not]
      exact fun hs => hser row hrow hs
    unfold editRouter
    rw [if_neg hrole, hr]
    dsimp only
    rw [hany]
    constructor
    · rfl
    · simp [saveRouter]
  · intro routerId r hr
    unfold deleteRouter
    rw [if_neg hrole, hr]
    exact ⟨rfl, by simp [saveRouter]⟩
  · intro catId name ctype c hc
    unfold editCategory
    rw [if_neg hrole, hc]
    exact ⟨rfl, by simp [saveCategory]⟩
  · intro catId c hc
    unfold deleteCategory
    rw [if_neg hrole, hc]
    exact ⟨rfl, by simp [saveCategory]⟩

/-- Witness for C5's amended theorem: creating a router in the example
database succeeds and appends exactly the one `add` log row, while a
successful `sale` appends none. -/
theorem mutation_log_rows_witness :
    ((createRouter exDB 7 0 "store_manager" 0 "Z").2 = ActionResult.ok
      ∧ (createRouter exDB 7 0 "store_manager" 0 "Z").1.logs =
          exDB.logs ++
            [{ store := some 0, user := 7, action := LogAction.add,
               instance_kind := LogInstance.router, serial_number := some "Z",
               category_name := none, instance_id := some 1 }])
    ∧ (applyAction exDB 0 7 ActionType.sale "X" none none none none none).1.logs =
        exDB.logs := by
  have hcat : (exDB.categories.filter (fun x => decide (x.id = 0))).head? =
      some exCat := by rfl
  have hser : findGlobal exDB.routers "Z" = none := by rfl
  exact ⟨(mutation_log_rows exDB 7 0).2.1 0 "Z" exCat hcat hser,
    (mutation_log_rows exDB 7 0).1 ActionType.sale "X" none none none none none⟩

/-! ## C3 -/

theorem storeDayTotal_no_rows (mons : List MonitoringRow) (sId : Nat) (d : Int)
    (h : storeDayRows mons sId d = []) (hne : mons ≠ []) :
    storeDayTotal mons sId d = some 0 := by
  unfold storeDayTotal
  cases hm : mons with
  | nil => exact absurd hm hne
  | cons a t =>
    dsimp only
    congr 1
    apply List.sum_eq_zero
    intro x hx
    rw [List.mem_map] at hx
    obtain ⟨m, hmem, hmx⟩ := hx
    have hno := List.filter_eq_nil_iff.1 (show List.filter _ (a :: t) = [] from hm ▸ h)
      m hmem
    simp only [decide_eq_true_eq] at hno
    rw [← hmx, if_neg hno]

/-- Counterexample to C3 as stated: on a database whose Monitoring table is
completely empty, the first element of the aggregate store trend is `None`
(the SQL `Sum` of an empty table), not 0 as the carry-forward policy claims
for a first window day with no data. -/
theorem store_trend_counterexample :
    (store_trend exDB 10 exStore).head? = some none
    ∧ some (none : Option Int) ≠ some (some (0 : Int)) := by
  exact ⟨rfl, by decide⟩

/-- C3 (amended): the five-day per-category trend follows the claimed
policy exactly — live count today, the stored row's count for a past day
when one exists, the previous day's resolved value otherwise, and 0 on the
first day with no data — and the aggregate store trend follows the same
policy applied to the per-day conditional sum, except that a day without
any store rows resolves, when it has no prior value, to `some 0` only when
the Monitoring table is non-empty and to `none` when the table has no rows
at all. -/
theorem trend_policy (db : DB) (today : Int) (s : Store) (c : Category) :
    (catTrend db today s c).length = 5
    ∧ catTrendVal db today s c 4 = (Category.count_routers c db.routers : Int)
    ∧ (∀ n : Nat, n + 1 < 4 → ∀ m,
        (monDayRows db.monitoring s.id c.id (today - 4 + ((n : Int) + 1))).head? =
          some m →
        catTrendVal db today s c (n + 1) = m.routers)
    ∧ (∀ m, (monDayRows db.monitoring s.id c.id (today - 4)).head? = some m →
        catTrendVal db today s c 0 = m.routers)
    ∧ (∀ n : Nat, n + 1 < 4 →
        (monDayRows db.monitoring s.id c.id (today - 4 + ((n : Int) + 1))).head? =
          none →
        catTrendVal db today s c (n + 1) = catTrendVal db today s c n)
    ∧ ((monDayRows db.monitoring s.id c.id (today - 4)).head? = none →
        catTrendVal db today s c 0 = 0)
    ∧ (store_trend db today s).length = 5
    ∧ storeTrendVal db today s 4 = some ((Store.count_routers s db.routers : Int))
    ∧ (∀ n : Nat, n + 1 < 4 →
        storeDayRows db.monitoring s.id (today - 4 + ((n : Int) + 1)) ≠ [] →
        storeTrendVal db today s (n + 1) =
          storeDayTotal db.monitoring s.id (today - 4 + ((n : Int) + 1)))
    ∧ (∀ n : Nat, n + 1 < 4 →
        storeDayRows db.monitoring s.id (today - 4 + ((n : Int) + 1)) = [] →
        storeTrendVal db today s (n + 1) = storeTrendVal db today s n)
    ∧ (storeDayRows db.monitoring s.id (today - 4) = [] →
        storeTrendVal db today s 0 =
          if db.monitoring = [] then none else some 0) := by
  refine ⟨rfl, by simp [catTrendVal], ?_, ?_, ?_, ?_, rfl, by simp [storeTrendVal],
    ?_, ?_, ?_⟩
  · intro n hn m hm
    have h4 : ¬ (n + 1 = 4) := by omega
    simp only [catTrendVal, if_neg h4, hm]
  · intro m hm
    simp only [catTrendVal, hm]
  · intro n hn hm
    have h4 : ¬ (n + 1 = 4) := by omega
    simp only [catTrendVal, if_neg h4, hm]
  · intro hm
    simp only [catTrendVal, hm]
  · intro n hn hrows
    have h4 : ¬ (n + 1 = 4) := by omega
    simp only [storeTrendVal, if_neg h4]
    rw [if_neg]
    intro hco
    exact hrows hco.2
  · intro n hn hrows
    have h4 : ¬ (n + 1 = 4) := by omega
    have hfal : falsy (storeDayTotal db.monitoring s.id
        (today - 4 + ((n : Int) + 1))) = true := by
      cases hmons : db.monitoring with
      | nil => rfl
      | cons a t =>
        have hrows' : storeDayRows (a :: t) s.id (today - 4 + ((n : Int) + 1)) = [] :=
          by rw [← hmons]; exact hrows
        rw [storeDayTotal_no_rows (a :: t) s.id _ hrows' (by simp)]
        rfl
    simp only [storeTrendVal, if_neg h4]
    rw [if_pos ⟨hfal, hrows⟩]
  · intro hrows
    cases hmons : db.monitoring with
    | nil =>
      rw [if_pos rfl]
      show storeDayTotal db.monitoring s.id (today - 4) = none
      rw [hmons]
      rfl
    | cons a t =>
      rw [if_neg (by simp)]
      show storeDayTotal db.monitoring s.id (today - 4) = some 0
      exact storeDayTotal_no_rows db.monitoring s.id _ hrows (by rw [hmons]; simp)

/-- The example database with Monitoring rows only on window day 1
(calendar day 7, count 10) and window day 3 (calendar day 9, count 7) of
the five-day window ending on day 10. -/
def exDB3 : DB :=
  { exDB with monitoring := [⟨0, some 0, 10, 7⟩, ⟨0, some 0, 7, 9⟩] }

/-- Witness for C3's amended theorem: the spec's own backfill example — a
stored row only on day 1 (count 10) and day 3 (count 7) of the window —
yields the sequence `[0, 10, 10, 7, live]` for the category and
`[some 0, some 10, some 10, some 7, some live]` for the store aggregate. -/
theorem trend_policy_witness :
    (catTrend exDB3 10 exStore exCat).length = 5
    ∧ catTrend exDB3 10 exStore exCat = [0, 10, 10, 7, 1]
    ∧ store_trend exDB3 10 exStore = [some 0, some 10, some 10, some 7, some 1] := by
  exact ⟨(trend_policy exDB3 10 exStore exCat).1, by decide, by decide⟩

/-! ## C2: characterization of `create_monitoring` -/

theorem monUpsert_frame (rs : List Router) (today : Int) (s : Store)
    (mons : List MonitoringRow) (c : Category) (sId' cId' : Nat)
    (hne : sId' ≠ s.id ∨ cId' ≠ c.id) :
    (monUpsert rs today s mons c).filter (monKey today sId' cId') =
      mons.filter (monKey today sId' cId') := by
  unfold monUpsert
  rcases hm : mons.filter (monKey today s.id c.id) with _ | ⟨m, _ | ⟨m2, t⟩⟩
  · dsimp only
    rw [List.filter_append]
    have hrow : List.filter (monKey today sId' cId')
        [⟨s.id, some c.id, (Category.count_routers c rs : Int), today⟩] = [] := by
      rw [List.filter_eq_nil_iff]
      intro x hx
      rw [List.mem_singleton] at hx
      subst hx
      unfold monKey
      simp only [decide_eq_true_eq, not_and]
      intro h1 h2
      rcases hne with hne | hne
      · exact absurd h1.symm hne
      · rw [Option.some_inj] at h2
        exact absurd h2.symm hne
    rw [hrow, List.append_nil]
  · dsimp only
    rw [filter_map_of_pres _ _ mons ?hpres]
    case hpres =>
      intro x _
      by_cases hk : monKey today s.id c.id x = true
      · rw [if_pos hk]
        unfold monKey at hk ⊢
        simp only [decide_eq_true_eq] at hk
        rcases hne with hne | hne
        · simp [hk.1, Ne.symm hne]
        · simp [hk.2.1, Ne.symm hne]
      · rw [if_neg hk]
    refine List.map_congr_left ?_ |>.trans (List.map_id _)
    intro x hx
    have hx' := (List.mem_filter.1 hx).2
    have hk : monKey today s.id c.id x = false := by
      unfold monKey at hx' ⊢
      simp only [decide_eq_true_eq] at hx'
      simp only [decide_eq_false_iff_not, not_and]
      intro h1 h2 _
      rcases hne with hne | hne
      · exact absurd (hx'.1.symm.trans h1) hne
      · exact absurd (Option.some_inj.1 (hx'.2.1.symm.trans h2)) hne
    rw [if_neg (by rw [hk]; exact Bool.false_ne_true)]
    rfl
  · rfl

theorem monUpsert_self (rs : List Router) (today : Int) (s : Store)
    (mons : List MonitoringRow) (c : Category) :
    (monUpsert rs today s mons c).filter (monKey today s.id c.id) =
      (match mons.filter (monKey today s.id c.id) with
        | [] => [⟨s.id, some c.id, (Category.count_routers c rs : Int), today⟩]
        | [m] => [{ m with routers := (Category.count_routers c rs : Int),
                           day := today }]
        | l => l) := by
  unfold monUpsert
  rcases hm : mons.filter (monKey today s.id c.id) with _ | ⟨m, _ | ⟨m2, t⟩⟩
  · dsimp only
    rw [List.filter_append, hm]
    have : List.filter (monKey today s.id c.id)
        [⟨s.id, some c.id, (Category.count_routers c rs : Int), today⟩] =
        [⟨s.id, some c.id, (Category.count_routers c rs : Int), today⟩] := by
      simp [monKey]
    rw [this, List.nil_append]
  · dsimp only
    rw [filter_map_of_pres _ _ mons ?hpres]
    case hpres =>
      intro x _
      by_cases hk : monKey today s.id c.id x = true
      · rw [if_pos hk, hk]
        have hk' := hk
        unfold monKey at hk'
        simp only [decide_eq_true_eq] at hk'
        unfold monKey
        simp only [decide_eq_true_eq]
        exact ⟨hk'.1, hk'.2.1, le_refl today⟩
      · rw [if_neg hk]
    rw [hm]
    have hkm : monKey today s.id c.id m = true := by
      have : m ∈ mons.filter (monKey today s.id c.id) := by
        rw [hm]; exact List.mem_cons_self m []
      exact (List.mem_filter.1 this).2
    rw [List.map_cons, List.map_nil, if_pos hkm]
  · dsimp only
    exact hm

theorem foldl_monUpsert_frame (rs : List Router) (today : Int) (s : Store) :
    ∀ (cs : List Category) (mons : List MonitoringRow) (sId' cId' : Nat),
      (sId' ≠ s.id ∨ cId' ∉ cs.map Category.id) →
      (List.foldl (monUpsert rs today s) mons cs).filter (monKey today sId' cId') =
        mons.filter (monKey today sId' cId') := by
  intro cs
  induction cs with
  | nil => intro mons sId' cId' _; rfl
  | cons a t ih =>
    intro mons sId' cId' hne
    rw [List.foldl_cons]
    have hstep : sId' ≠ s.id ∨ cId' ≠ a.id := by
      rcases hne with hne | hne
      · exact Or.inl hne
      · exact Or.inr (fun hc =>
          hne (hc ▸ List.mem_map_of_mem Category.id (List.mem_cons_self a t)))
    have hrest : sId' ≠ s.id ∨ cId' ∉ t.map Category.id := by
      rcases hne with hne | hne
      · exact Or.inl hne
      · exact Or.inr (fun hc => hne (by rw [List.map_cons]; exact List.mem_cons_of_mem _ hc))
    rw [ih (monUpsert rs today s mons a) sId' cId' hrest,
      monUpsert_frame rs today s mons a sId' cId' hstep]

theorem foldl_monUpsert_hit (rs : List Router) (today : Int) (s : Store) :
    ∀ (cs : List Category) (mons : List MonitoringRow) (c : Category),
      (cs.map Category.id).Nodup → c ∈ cs →
      (List.foldl (monUpsert rs today s) mons cs).filter (monKey today s.id c.id) =
        (match mons.filter (monKey today s.id c.id) with
          | [] => [⟨s.id, some c.id, (Category.count_routers c rs : Int), today⟩]
          | [m] => [{ m with routers := (Category.count_routers c rs : Int),
                             day := today }]
          | l => l) := by
  intro cs
  induction cs with
  | nil => intro mons c _ hc; exact absurd hc (List.not_mem_nil c)
  | cons a t ih =>
    intro mons c hnd hc
    rw [List.map_cons, List.nodup_cons] at hnd
    rw [List.foldl_cons]
    rcases List.mem_cons.1 hc with rfl | hct
    · rw [foldl_monUpsert_frame rs today s t (monUpsert rs today s mons c) s.id c.id
        (Or.inr hnd.1), monUpsert_self rs today s mons c]
    · have hne : c.id ≠ a.id := fun hce =>
        hnd.1 (hce ▸ List.mem_map_of_mem Category.id hct)
      rw [ih (monUpsert rs today s mons a) c hnd.2 hct,
        monUpsert_frame rs today s mons a s.id c.id (Or.inr hne)]

theorem processStore_frame (rs : List Router) (cats : List Category) (today : Int)
    (mons : List MonitoringRow) (s : Store) (sId' cId' : Nat) (hne : sId' ≠ s.id) :
    (processStore rs cats today mons s).filter (monKey today sId' cId') =
      mons.filter (monKey today sId' cId') :=
  foldl_monUpsert_frame rs today s _ mons sId' cId' (Or.inl hne)

theorem processStore_hit (rs : List Router) (cats : List Category) (today : Int)
    (mons : List MonitoringRow) (s : Store) (c : Category)
    (hnd : (cats.map Category.id).Nodup) (hc : c ∈ cats) (hcs : c.store = s.id) :
    (processStore rs cats today mons s).filter (monKey today s.id c.id) =
      (match mons.filter (monKey today s.id c.id) with
        | [] => [⟨s.id, some c.id, (Category.count_routers c rs : Int), today⟩]
        | [m] => [{ m with routers := (Category.count_routers c rs : Int),
                           day := today }]
        | l => l) := by
  unfold processStore
  refine foldl_monUpsert_hit rs today s _ mons c ?_ ?_
  · exact ((List.filter_sublist cats).map Category.id).nodup hnd
  · exact List.mem_filter.2 ⟨hc, by simp [hcs]⟩

theorem foldl_processStore_frame (rs : List Router) (cats : List Category)
    (today : Int) :
    ∀ (ss : List Store) (mons : List MonitoringRow) (sId' cId' : Nat),
      sId' ∉ ss.map Store.id →
      (List.foldl (processStore rs cats today) mons ss).filter
          (monKey today sId' cId') =
        mons.filter (monKey today sId' cId') := by
  intro ss
  induction ss with
  | nil => intro mons sId' cId' _; rfl
  | cons a t ih =>
    intro mons sId' cId' hne
    rw [List.map_cons, List.mem_cons] at hne
    push_neg at hne
    rw [List.foldl_cons, ih (processStore rs cats today mons a) sId' cId' hne.2,
      processStore_frame rs cats today mons a sId' cId' hne.1]

theorem foldl_processStore_hit (rs : List Router) (cats : List Category)
    (today : Int) :
    ∀ (ss : List Store) (mons : List MonitoringRow) (s : Store) (c : Category),
      (ss.map Store.id).Nodup → (cats.map Category.id).Nodup →
      s ∈ ss → c ∈ cats → c.store = s.id →
      (List.foldl (processStore rs cats today) mons ss).filter
          (monKey today s.id c.id) =
        (match mons.filter (monKey today s.id c.id) with
          | [] => [⟨s.id, some c.id, (Category.count_routers c rs : Int), today⟩]
          | [m] => [{ m with routers := (Category.count_routers c rs : Int),
                             day := today }]
          | l => l) := by
  intro ss
  induction ss with
  | nil => intro mons s c _ _ hs _ _; exact absurd hs (List.not_mem_nil s)
  | cons a t ih =>
    intro mons s c hnds hndc hs hc hcs
    rw [List.map_cons, List.nodup_cons] at hnds
    rw [List.foldl_cons]
    rcases List.mem_cons.1 hs with rfl | hst
    · rw [foldl_processStore_frame rs cats today t
        (processStore rs cats today mons s) s.id c.id hnds.1,
        processStore_hit rs cats today mons s c hndc hc hcs]
    · have hne : s.id ≠ a.id := fun hse =>
        hnds.1 (hse ▸ List.mem_map_of_mem Store.id hst)
      rw [ih (processStore rs cats today mons a) s c hnds.2 hndc hst hc hcs,
        processStore_frame rs cats today mons a s.id c.id hne]

/-- C2: running the daily snapshot twice on the same day, starting from a
state with no Monitoring rows for today, leaves exactly one Monitoring row
per (store, category) pair for today, and its count is the live in-stock
count at the time of the second run. -/
theorem snapshot_idempotent (db : DB) (today : Int)
    (hday : ∀ m ∈ db.monitoring, m.day < today)
    (hnds : (db.stores.map Store.id).Nodup)
    (hndc : (db.categories.map Category.id).Nodup) :
    (create_monitoring db today).routers = db.routers
    ∧ ∀ s ∈ db.stores, ∀ c ∈ db.categories, c.store = s.id →
        ((create_monitoring (create_monitoring db today) today).monitoring.filter
            (monKey today s.id c.id)).length = 1
        ∧ (create_monitoring (create_monitoring db today) today).monitoring.filter
              (monKey today s.id c.id) =
            [⟨s.id, some c.id,
              (Category.count_routers c (create_monitoring db today).routers : Int),
              today⟩] := by
  refine ⟨rfl, ?_⟩
  intro s hsmem c hcmem hcs
  have h0 : db.monitoring.filter (monKey today s.id c.id) = [] := by
    rw [List.filter_eq_nil_iff]
    intro m hm
    unfold monKey
    simp only [decide_eq_true_eq, not_and]
    intro _ _
    exact not_le.2 (hday m hm)
  have h1 : (create_monitoring db today).monitoring.filter (monKey today s.id c.id) =
      [⟨s.id, some c.id, (Category.count_routers c db.routers : Int), today⟩] := by
    show (List.foldl (processStore db.routers db.categories today) db.monitoring
        db.stores).filter (monKey today s.id c.id) = _
    rw [foldl_processStore_hit db.routers db.categories today db.stores db.monitoring
      s c hnds hndc hsmem hcmem hcs, h0]
  have h2 : (create_monitoring (create_monitoring db today) today).monitoring.filter
      (monKey today s.id c.id) =
      [⟨s.id, some c.id, (Category.count_routers c db.routers : Int), today⟩] := by
    show (List.foldl (processStore db.routers db.categories today)
        (create_monitoring db today).monitoring db.stores).filter
        (monKey today s.id c.id) = _
    rw [foldl_processStore_hit db.routers db.categories today db.stores
      (create_monitoring db today).monitoring s c hnds hndc hsmem hcmem hcs, h1]
  exact ⟨by rw [h2]; rfl, h2⟩

/-- Witness for C2 on the concrete database: two runs of the snapshot on
day 10 leave exactly one row for (store 0, category 0) carrying the live
count 1. -/
theorem snapshot_idempotent_witness :
    ((∀ m ∈ exDB.monitoring, m.day < 10)
      ∧ (List.map Store.id exDB.stores).Nodup
      ∧ (List.map Category.id exDB.categories).Nodup)
    ∧ ((create_monitoring (create_monitoring exDB 10) 10).monitoring.filter
          (monKey 10 0 0)).length = 1 := by
  have hday : ∀ m ∈ exDB.monitoring, m.day < 10 := by
    intro m hm
    exact absurd hm (List.not_mem_nil m)
  have hnds : (List.map Store.id exDB.stores).Nodup := by decide
  have hndc : (List.map Category.id exDB.categories).Nodup := by decide
  refine ⟨⟨hday, hnds, hndc⟩, ?_⟩
  exact ((snapshot_idempotent exDB 10 hday hnds hndc).2 exStore
    (List.mem_cons_self _ _) exCat (List.mem_cons_self _ _) rfl).1

end Inv
